import Mathlib

/-!
Verification of the battery-level display monitor (`batter-level.py`).

The script polls a Home Assistant sensor for a battery percentage, keeps a
record of the last successful reading and the consecutive-failure count,
renders the state onto an Inky pHAT e-paper display, and sleeps between
cycles.  We embed the functions the claims depend on as pure Lean
definitions:

  * `get_battery_status` over an explicit outcome of the HTTP request
    (exceptions become constructors of `HttpOutcome`);
  * `get_battery_status_with_retry` as a trace function returning attempt
    counts and the list of back-off sleeps, with the jitter drawn by
    `random.uniform(0.1, 0.5)` supplied as a parameter;
  * the color/glyph selection and footer lines of `update_inky_display`;
  * the main loop as a step function on `LoopState`, together with the
    per-cycle display call and per-cycle sleeps.

Python floats are modelled as rationals (the comparisons and arithmetic the
claims touch are exact at these magnitudes).
-/

namespace Battery

/-- Constant `UPDATE_INTERVAL = 300` (seconds), from the configuration block. -/
def UPDATE_INTERVAL : Nat := 300

/-- Constant `MAX_RETRIES = 3`, from the configuration block. -/
def MAX_RETRIES : Nat := 3

/-- Constant `INITIAL_RETRY_DELAY = 5` (seconds). -/
def INITIAL_RETRY_DELAY : ℚ := 5

/-- Constant `MAX_RETRY_DELAY = 60` (seconds). -/
def MAX_RETRY_DELAY : ℚ := 60

/-- Constant `RETRY_BACKOFF_MULTIPLIER = 2`. -/
def RETRY_BACKOFF_MULTIPLIER : ℚ := 2

/-- Constant `INKY_COLOUR = "black"`, from the configuration block. -/
def INKY_COLOUR : String := "black"

/-! ## `get_battery_status`: one fetch attempt -/

/-- Outcome of the body of `get_battery_status`'s `try` block: either the
request, `raise_for_status`, and `response.json()` all succeed — yielding
the optional `"state"` field of the JSON body as a string — or one of the
exception classes handled by its `except` clauses is raised. -/
inductive HttpOutcome where
  | ok (state : Option String)
  | timeout
  | connectionError
  | httpError (code : Nat)
  | requestError
  | jsonError
  | otherException
  deriving DecidableEq, Repr

/-- Digits-to-number helper for the decimal fragment of Python `float`. -/
def digitsVal (cs : List Char) : Nat :=
  cs.foldl (fun acc c => acc * 10 + (c.toNat - 48)) 0

/-- Models Python `float(s)` on plain decimal literals (optional sign,
integer part, optional fractional part): `none` models the `ValueError`
raised on a non-numeric string. -/
def pyFloat? (s : String) : Option ℚ :=
  let cs := s.toList
  let (sign, rest) :=
    match cs with
    | '-' :: t => ((-1 : ℚ), t)
    | '+' :: t => ((1 : ℚ), t)
    | t => ((1 : ℚ), t)
  let intPart := rest.takeWhile Char.isDigit
  let after := rest.dropWhile Char.isDigit
  match after with
  | [] =>
      if intPart.isEmpty then none
      else some (sign * (digitsVal intPart : ℚ))
  | '.' :: fracRest =>
      let fracPart := fracRest.takeWhile Char.isDigit
      if fracRest.dropWhile Char.isDigit ≠ [] then none
      else if intPart.isEmpty ∧ fracPart.isEmpty then none
      else some (sign * ((digitsVal intPart : ℚ) +
        (digitsVal fracPart : ℚ) / ((10 : ℚ) ^ fracPart.length)))
  | _ => none

/-- Function `get_battery_status()`: on a successful request it evaluates
`float(data.get("state", 0))` — a missing `"state"` key defaults to the
integer `0`, so `float` returns `0.0`; a present string goes through
`float`, whose `ValueError` is caught and mapped to `None`.  Every handled
exception class returns `None`. -/
def get_battery_status : HttpOutcome → Option ℚ
  | .ok none => some 0
  | .ok (some s) => pyFloat? s
  | .timeout => none
  | .connectionError => none
  | .httpError _ => none
  | .requestError => none
  | .jsonError => none
  | .otherException => none

/-! ## `get_battery_status_with_retry`: bounded retry with back-off -/

/-- Exponential back-off delay
`delay = min(INITIAL_RETRY_DELAY * (RETRY_BACKOFF_MULTIPLIER ** attempt), MAX_RETRY_DELAY)`
for the zero-based index of the attempt that just failed. -/
def retryDelay (attempt : Nat) : ℚ :=
  min (INITIAL_RETRY_DELAY * RETRY_BACKOFF_MULTIPLIER ^ attempt) MAX_RETRY_DELAY

/-- Trace of one call to `get_battery_status_with_retry`: how many fetch
attempts were made, the inter-attempt sleeps in order, and the returned
value. -/
structure RetryTrace where
  attempts : Nat
  sleeps : List ℚ
  result : Option ℚ
  deriving DecidableEq, Repr

/-- The `for attempt in range(MAX_RETRIES)` loop, unrolled on remaining
fuel.  `results attempt` is the value `get_battery_status()` returns on
that attempt; `jitters attempt` is the factor drawn by
`random.uniform(0.1, 0.5)` when that attempt fails, so the sleep is
`delay + jitter * delay`. -/
def retryLoop (results : Nat → Option ℚ) (jitters : Nat → ℚ) :
    Nat → Nat → RetryTrace
  | _, 0 => ⟨0, [], none⟩
  | attempt, fuel + 1 =>
      match results attempt with
      | some v => ⟨1, [], some v⟩
      | none =>
          if attempt < MAX_RETRIES - 1 then
            let delay := retryDelay attempt
            let sleep := delay + jitters attempt * delay
            let t := retryLoop results jitters (attempt + 1) fuel
            ⟨t.attempts + 1, sleep :: t.sleeps, t.result⟩
          else ⟨1, [], none⟩

/-- Function `get_battery_status_with_retry()`: run the loop from attempt 0
with fuel `MAX_RETRIES`. -/
def get_battery_status_with_retry (results : Nat → Option ℚ)
    (jitters : Nat → ℚ) : RetryTrace :=
  retryLoop results jitters 0 MAX_RETRIES

/-! ## `update_inky_display`: colors, glyphs and footer lines -/

/-- The display palette constants of the Inky driver. -/
inductive InkyColor where
  | black
  | white
  | red
  | yellow
  deriving DecidableEq, Repr

/-- The `color_map` dictionary of `update_inky_display`. -/
def color_map (c : String) : Option InkyColor :=
  if c = "black" then some .black
  else if c = "white" then some .white
  else if c = "red" then some .red
  else if c = "yellow" then some .yellow
  else none

/-- Models Python `str.lower()` on the ASCII color names used here. -/
def pyLower (s : String) : String :=
  String.mk (s.data.map Char.toLower)

/-- Value `default_color = color_map.get(INKY_COLOUR.lower(), inky_display.BLACK)`. -/
def default_color : InkyColor :=
  (color_map (pyLower INKY_COLOUR)).getD .black

/-- The color/glyph selection of `update_inky_display` for a present
`battery_level`: `< 20` → red and `"!"`, `< 50` → the `"yellow"` palette
entry and `"~"`, otherwise `default_color` and `"+"`. -/
def batteryColorSymbol (battery_level : ℚ) : InkyColor × String :=
  if battery_level < 20 then (.red, "!")
  else if battery_level < 50 then ((color_map "yellow").getD default_color, "~")
  else (default_color, "+")

/-- Flag `is_error` in `update_inky_display`: set exactly when the
`battery_level` argument is `None`. -/
def is_error (battery_level : Option ℚ) : Bool :=
  battery_level.isNone

/-- The `main_text` of the header region: the truncated percentage when a
level is present, `"ERROR"` otherwise.  (`int()` truncates toward zero;
the levels rendered are non-negative, so `⌊·⌋` agrees.) -/
def main_text (battery_level : Option ℚ) : String :=
  match battery_level with
  | some v => toString ⌊v⌋ ++ "%"
  | none => "ERROR"

/-- The `"Retries: {n}"` footer line: drawn exactly when the global
`consecutive_failures` read inside `update_inky_display` is positive and
`is_error` is false (i.e. the displayed level is present). -/
def retriesLine (battery_level : Option ℚ) (consecutive_failures : Nat) :
    Option String :=
  if consecutive_failures > 0 ∧ ¬ is_error battery_level then
    some ("Retries: " ++ toString consecutive_failures)
  else none

/-! ## The main loop -/

/-- The loop-local state of `__main__`: `last_successful_battery_level`,
`last_successful_update_time` (a timestamp, modelled as seconds), and
`consecutive_failures`. -/
structure LoopState where
  lastGoodLevel : Option ℚ
  lastGoodTime : Option Nat
  consecutiveFailures : Nat
  deriving DecidableEq, Repr

/-- The state at `__main__` start: no previous reading, zero failures. -/
def initState : LoopState := ⟨none, none, 0⟩

/-- What one loop body amounts to for the state: `fetchSuccess v now` is
`get_battery_status_with_retry()` returning `v` at wall-clock `now`;
`fetchFailure` is it returning `None`; `unexpectedError` is an exception
reaching the outer `except Exception` handler. -/
inductive CycleOutcome where
  | fetchSuccess (v : ℚ) (now : Nat)
  | fetchFailure
  | unexpectedError
  deriving DecidableEq, Repr

/-- A cycle that does not obtain a reading (fetch returned `None`, or the
loop body raised). -/
def CycleOutcome.isFailure : CycleOutcome → Bool
  | .fetchSuccess _ _ => false
  | .fetchFailure => true
  | .unexpectedError => true

/-- The state update of one loop iteration: success overwrites both
last-good fields and zeroes the failure counter; a failed fetch and an
unexpected error each increment the counter and touch nothing else. -/
def stepState (s : LoopState) : CycleOutcome → LoopState
  | .fetchSuccess v now => ⟨some v, some now, 0⟩
  | .fetchFailure => { s with consecutiveFailures := s.consecutiveFailures + 1 }
  | .unexpectedError => { s with consecutiveFailures := s.consecutiveFailures + 1 }

/-- Run a sequence of loop iterations. -/
def runCycles (s : LoopState) (os : List CycleOutcome) : LoopState :=
  os.foldl stepState s

/-- The arguments of the cycle's call to `update_inky_display_safe`, if the
cycle makes one: the `battery_level` argument, the `connection_status`
string, and the value of the global `consecutive_failures` at call time
(the call happens after the counter is updated).  On success the fresh
value is shown; on a failed fetch the stale `last_successful_battery_level`
is shown when present, else `None`; the unexpected-error branch makes no
display call. -/
def cycleDisplayCall (s : LoopState) : CycleOutcome →
    Option (Option ℚ × String × Nat)
  | .fetchSuccess v _ => some (some v, "OK", 0)
  | .fetchFailure =>
      match s.lastGoodLevel with
      | some lv => some (some lv, "FAILED", s.consecutiveFailures + 1)
      | none => some (none, "FAILED", s.consecutiveFailures + 1)
  | .unexpectedError => none

/-- The sleeps of one cycle, in order: when the fetch failed and the
updated counter is at least 5, `time.sleep(extended_wait - UPDATE_INTERVAL)`
with `extended_wait = min(UPDATE_INTERVAL * 2, 1800)`; then, on every path,
the end-of-cycle `time.sleep(UPDATE_INTERVAL)`. -/
def cycleSleeps (s : LoopState) : CycleOutcome → List Nat
  | .fetchSuccess _ _ => [UPDATE_INTERVAL]
  | .fetchFailure =>
      if s.consecutiveFailures + 1 ≥ 5 then
        [min (UPDATE_INTERVAL * 2) 1800 - UPDATE_INTERVAL, UPDATE_INTERVAL]
      else [UPDATE_INTERVAL]
  | .unexpectedError => [UPDATE_INTERVAL]

/-- Total time slept in one cycle. -/
def cycleSleepTotal (s : LoopState) (o : CycleOutcome) : Nat :=
  (cycleSleeps s o).sum

/-- Left-aligned footer status line of `update_inky_display`:
`"Connection Failed"` on error, `"Battery Level"` otherwise. -/
def status_text (battery_level : Option ℚ) : String :=
  if is_error battery_level then "Connection Failed" else "Battery Level"

/-! ## TextFitter -/

/-- Modelled from the spec: no text-fitting code exists under `src/` (the
source uses fixed font sizes), so `TextFitter.fit` is taken from the
spec's description.  `measure` is the external font-metrics capability
applied to the fixed text and font family, giving the bounding box at a
size; `fitsWithin` holds when that box is strictly smaller than
`(maxW, maxH)` in both dimensions. -/
def fitsWithin (measure : Nat → Nat × Nat) (maxW maxH : Nat) (s : Nat) : Bool :=
  decide ((measure s).1 < maxW) && decide ((measure s).2 < maxH)

/-- Modelled from the spec: the monotonic probe of `TextFitter.fit` —
increase the size while the measured box is strictly smaller than the
bounds; at the first size that violates either bound, step back one size.
The fuel realises the upper bound of 1000 on the search; on exhaustion the
last size that fit is returned. -/
def fitGo (measure : Nat → Nat × Nat) (maxW maxH : Nat) : Nat → Nat → Nat
  | s, 0 => s - 1
  | s, fuel + 1 =>
      if fitsWithin measure maxW maxH s then fitGo measure maxW maxH (s + 1) fuel
      else s - 1

/-- Modelled from the spec: `fit(text, maxWidth, maxHeight, fontFamily)`,
the monotonic search starting at size 1 with an upper bound of 1000. -/
def fit (measure : Nat → Nat × Nat) (maxW maxH : Nat) : Nat :=
  fitGo measure maxW maxH 1 1000

/-! ## Theorems -/

/-- C5: for every present battery value in `[0, 100)` the layout selects
the alert color (red) and `"!"` glyph iff the value is below 20, the
caution color (yellow) and `"~"` iff it is in `[20, 50)`, and the
normal/default color (black, from the fixed `INKY_COLOUR` constant) and
`"+"` otherwise; the thresholds 20 and 50 are literals in the code. -/
theorem color_thresholds (v : ℚ) (h0 : 0 ≤ v) (h1 : v < 100) :
    ((batteryColorSymbol v).1 = InkyColor.red ↔ v < 20) ∧
    ((batteryColorSymbol v).1 = InkyColor.yellow ↔ 20 ≤ v ∧ v < 50) ∧
    ((batteryColorSymbol v).1 = default_color ↔ 50 ≤ v) ∧
    ((batteryColorSymbol v).2 = "!" ↔ v < 20) ∧
    ((batteryColorSymbol v).2 = "~" ↔ 20 ≤ v ∧ v < 50) ∧
    ((batteryColorSymbol v).2 = "+" ↔ 50 ≤ v) := by
  have hd : default_color = InkyColor.black := by decide
  have hy : (color_map "yellow").getD default_color = InkyColor.yellow := by decide
  unfold batteryColorSymbol
  rw [hy, hd]
  split_ifs with h2 h5 <;>
    refine ⟨?_, ?_, ?_, ?_, ?_, ?_⟩ <;> simp_all <;> try linarith

/-- Witness for `color_thresholds` at the caution value 30. -/
theorem color_thresholds_witness :
    ((0 : ℚ) ≤ 30 ∧ (30 : ℚ) < 100) ∧
    (((batteryColorSymbol 30).1 = InkyColor.red ↔ (30 : ℚ) < 20) ∧
      ((batteryColorSymbol 30).1 = InkyColor.yellow ↔
        20 ≤ (30 : ℚ) ∧ (30 : ℚ) < 50) ∧
      ((batteryColorSymbol 30).1 = default_color ↔ 50 ≤ (30 : ℚ)) ∧
      ((batteryColorSymbol 30).2 = "!" ↔ (30 : ℚ) < 20) ∧
      ((batteryColorSymbol 30).2 = "~" ↔ 20 ≤ (30 : ℚ) ∧ (30 : ℚ) < 50) ∧
      ((batteryColorSymbol 30).2 = "+" ↔ 50 ≤ (30 : ℚ))) :=
  ⟨by norm_num, color_thresholds 30 (by norm_num) (by norm_num)⟩

/-- C3 counterexample: an HTTP response whose JSON body has no `"state"`
field is not surfaced as a failed fetch — `float(data.get("state", 0))`
defaults the missing field to `0`, so `get_battery_status` returns the
successful reading `0.0` rather than `None`. -/
theorem missing_state_cex :
    get_battery_status (HttpOutcome.ok none) = some 0 ∧
    ¬ get_battery_status (HttpOutcome.ok none) = none := by
  refine ⟨rfl, ?_⟩
  intro h
  rw [show get_battery_status (HttpOutcome.ok none) = some 0 from rfl] at h
  cases h

/-- C3 amended: a missing `"state"` field is treated as the number 0 and
returned as a successful reading `0.0`; only a present but non-numeric
`"state"` raises `ValueError` and is surfaced as a failed fetch (`None`). -/
theorem missing_state_amended :
    get_battery_status (HttpOutcome.ok none) = some 0 ∧
    ∀ s, pyFloat? s = none → get_battery_status (HttpOutcome.ok (some s)) = none :=
  ⟨rfl, fun _ h => h⟩

/-- Witness for `missing_state_amended` at the non-numeric body `"abc"`. -/
theorem missing_state_amended_witness :
    pyFloat? "abc" = none ∧
    get_battery_status (HttpOutcome.ok (some "abc")) = none :=
  ⟨rfl, missing_state_amended.2 "abc" rfl⟩

/-- C10: `get_battery_status` is total at its interface — every exceptional
outcome of the request/parse (timeout, connection error, HTTP status
error, other request exception, JSON decode error, and the catch-all
`except Exception`) is mapped to `None`, and a value is only ever returned
from a successfully parsed response. -/
theorem fetch_total_interface :
    (∀ o : HttpOutcome, (∃ st, o = HttpOutcome.ok st) ∨ get_battery_status o = none) ∧
    get_battery_status HttpOutcome.timeout = none ∧
    get_battery_status HttpOutcome.connectionError = none ∧
    (∀ c, get_battery_status (HttpOutcome.httpError c) = none) ∧
    get_battery_status HttpOutcome.requestError = none ∧
    get_battery_status HttpOutcome.jsonError = none ∧
    get_battery_status HttpOutcome.otherException = none := by
  refine ⟨?_, rfl, rfl, fun _ => rfl, rfl, rfl, rfl⟩
  intro o
  cases o with
  | ok st => exact Or.inl ⟨st, rfl⟩
  | timeout => exact Or.inr rfl
  | connectionError => exact Or.inr rfl
  | httpError c => exact Or.inr rfl
  | requestError => exact Or.inr rfl
  | jsonError => exact Or.inr rfl
  | otherException => exact Or.inr rfl

/-- C7: a failed cycle (failed fetch or unexpected error) leaves the
last-known-good level and its timestamp unchanged, and a successful cycle
is the transition that overwrites them. -/
theorem failure_preserves_last_good (s : LoopState) (v : ℚ) (now : Nat) :
    (stepState s CycleOutcome.fetchFailure).lastGoodLevel = s.lastGoodLevel ∧
    (stepState s CycleOutcome.fetchFailure).lastGoodTime = s.lastGoodTime ∧
    (stepState s CycleOutcome.unexpectedError).lastGoodLevel = s.lastGoodLevel ∧
    (stepState s CycleOutcome.unexpectedError).lastGoodTime = s.lastGoodTime ∧
    (stepState s (CycleOutcome.fetchSuccess v now)).lastGoodLevel = some v ∧
    (stepState s (CycleOutcome.fetchSuccess v now)).lastGoodTime = some now :=
  ⟨rfl, rfl, rfl, rfl, rfl, rfl⟩

/-- C1 counterexample: on the cycle where the failure count reaches 5, the
code sleeps `extended_wait - UPDATE_INTERVAL` and then `UPDATE_INTERVAL`,
a total of 600 seconds — not the 900 seconds the claim's
`min(UPDATE_INTERVAL * 2, 1800) + UPDATE_INTERVAL` would give. -/
theorem extended_sleep_cex :
    cycleSleepTotal ⟨some 40, some 0, 4⟩ CycleOutcome.fetchFailure = 600 ∧
    min (UPDATE_INTERVAL * 2) 1800 + UPDATE_INTERVAL = 900 ∧
    ¬ cycleSleepTotal ⟨some 40, some 0, 4⟩ CycleOutcome.fetchFailure =
        min (UPDATE_INTERVAL * 2) 1800 + UPDATE_INTERVAL := by
  refine ⟨by decide, by decide, by decide⟩

/-- C1 amended: in a fetch-failure cycle whose updated failure count is at
least 5, the extra sleep is `min(UPDATE_INTERVAL * 2, 1800) - UPDATE_INTERVAL`
followed by the normal `UPDATE_INTERVAL` sleep, so the total time slept
equals `min(UPDATE_INTERVAL * 2, 1800)` — the extended interval replaces
the normal one rather than adding to it. -/
theorem extended_sleep_amended (s : LoopState)
    (h : s.consecutiveFailures + 1 ≥ 5) :
    cycleSleeps s CycleOutcome.fetchFailure =
      [min (UPDATE_INTERVAL * 2) 1800 - UPDATE_INTERVAL, UPDATE_INTERVAL] ∧
    cycleSleepTotal s CycleOutcome.fetchFailure = min (UPDATE_INTERVAL * 2) 1800 := by
  unfold cycleSleepTotal cycleSleeps
  rw [if_pos h]
  exact ⟨rfl, by decide⟩

/-- Witness for `extended_sleep_amended` at a state with 7 prior failures. -/
theorem extended_sleep_amended_witness :
    (LoopState.mk (some 40) (some 0) 7).consecutiveFailures + 1 ≥ 5 ∧
    (cycleSleeps ⟨some 40, some 0, 7⟩ CycleOutcome.fetchFailure =
        [min (UPDATE_INTERVAL * 2) 1800 - UPDATE_INTERVAL, UPDATE_INTERVAL] ∧
      cycleSleepTotal ⟨some 40, some 0, 7⟩ CycleOutcome.fetchFailure =
        min (UPDATE_INTERVAL * 2) 1800) :=
  ⟨by decide, extended_sleep_amended ⟨some 40, some 0, 7⟩ (by decide)⟩

/-- C2 counterexample: a successful cycle preceded by 2 consecutive
failures does not show a `"Retries: 2"` line — the success branch resets
the global `consecutive_failures` to 0 before calling the display update,
so the line's guard `consecutive_failures > 0` is already false. -/
theorem retries_line_cex :
    cycleDisplayCall ⟨some 40, some 100, 2⟩ (CycleOutcome.fetchSuccess 55 200) =
      some (some 55, "OK", 0) ∧
    retriesLine (some 55) 0 = none :=
  ⟨rfl, rfl⟩

/-- C2 amended: the `"Retries: {n}"` line is drawn iff the failure count
passed to the display is positive and the displayed level is present; in
the main loop that happens exactly on fetch-failure cycles with a prior
good reading (a stale value is displayed), with `n` the just-incremented
failure count — never on a success cycle, whose counter is reset to 0
before the display call. -/
theorem retries_line_amended (s : LoopState) (o : CycleOutcome) (lvl : Option ℚ)
    (cs : String) (n : Nat) (hcall : cycleDisplayCall s o = some (lvl, cs, n)) :
    ((retriesLine lvl n).isSome = true ↔
      o = CycleOutcome.fetchFailure ∧ s.lastGoodLevel.isSome = true) ∧
    (o = CycleOutcome.fetchFailure → n = s.consecutiveFailures + 1) := by
  cases o with
  | fetchSuccess v now =>
      simp only [cycleDisplayCall, Option.some.injEq, Prod.mk.injEq] at hcall
      obtain ⟨h1, h2, h3⟩ := hcall
      subst h1; subst h3
      simp [retriesLine, is_error]
  | fetchFailure =>
      cases hl : s.lastGoodLevel with
      | some lv =>
          simp only [cycleDisplayCall, hl, Option.some.injEq, Prod.mk.injEq] at hcall
          obtain ⟨h1, h2, h3⟩ := hcall
          subst h1; subst h3
          simp [retriesLine, is_error, hl]
      | none =>
          simp only [cycleDisplayCall, hl, Option.some.injEq, Prod.mk.injEq] at hcall
          obtain ⟨h1, h2, h3⟩ := hcall
          subst h1; subst h3
          simp [retriesLine, is_error, hl]
  | unexpectedError =>
      simp [cycleDisplayCall] at hcall

/-- Witness for `retries_line_amended`: a fetch-failure cycle with a prior
good reading and one previous failure. -/
theorem retries_line_amended_witness :
    cycleDisplayCall ⟨some 40, some 100, 1⟩ CycleOutcome.fetchFailure =
      some (some 40, "FAILED", 2) ∧
    (((retriesLine (some 40) 2).isSome = true ↔
        CycleOutcome.fetchFailure = CycleOutcome.fetchFailure ∧
        (LoopState.mk (some 40) (some 100) 1).lastGoodLevel.isSome = true) ∧
      (CycleOutcome.fetchFailure = CycleOutcome.fetchFailure →
        2 = (LoopState.mk (some 40) (some 100) 1).consecutiveFailures + 1)) :=
  ⟨rfl, retries_line_amended ⟨some 40, some 100, 1⟩ CycleOutcome.fetchFailure
    (some 40) "FAILED" 2 rfl⟩

/-- Counter additivity: a run of cycles that all fail adds its length to
the consecutive-failure counter. -/
theorem runCycles_failures_add (os : List CycleOutcome) :
    ∀ s : LoopState, (∀ o ∈ os, o.isFailure = true) →
      (runCycles s os).consecutiveFailures = s.consecutiveFailures + os.length := by
  induction os with
  | nil => intro s _; simp [runCycles]
  | cons o os ih =>
      intro s h
      have ho := h o (by simp)
      have hos : ∀ o ∈ os, o.isFailure = true := fun o hm => h o (by simp [hm])
      have hstep : runCycles s (o :: os) = runCycles (stepState s o) os := rfl
      rw [hstep, ih (stepState s o) hos]
      cases o with
      | fetchSuccess v now => simp [CycleOutcome.isFailure] at ho
      | fetchFailure => simp [stepState]; omega
      | unexpectedError => simp [stepState]; omega

/-- C6: from a state whose counter is 0 (the initial state, or right after
a success), k consecutive failed cycles leave the counter at exactly k,
and any following successful cycle resets it to 0 regardless of k. -/
theorem consecutive_failures_spec (s : LoopState) (os : List CycleOutcome)
    (h0 : s.consecutiveFailures = 0) (hos : ∀ o ∈ os, o.isFailure = true) :
    initState.consecutiveFailures = 0 ∧
    (runCycles s os).consecutiveFailures = os.length ∧
    ∀ (v : ℚ) (now : Nat),
      (stepState (runCycles s os) (CycleOutcome.fetchSuccess v now)).consecutiveFailures = 0 := by
  refine ⟨rfl, ?_, fun _ _ => rfl⟩
  rw [runCycles_failures_add os s hos, h0, Nat.zero_add]

/-- Witness for `consecutive_failures_spec`: three failed cycles from the
initial state, then a success. -/
theorem consecutive_failures_spec_witness :
    (runCycles initState
        [CycleOutcome.fetchFailure, CycleOutcome.unexpectedError,
          CycleOutcome.fetchFailure]).consecutiveFailures = 3 ∧
    (stepState
        (runCycles initState
          [CycleOutcome.fetchFailure, CycleOutcome.unexpectedError,
            CycleOutcome.fetchFailure])
        (CycleOutcome.fetchSuccess 50 10)).consecutiveFailures = 0 := by
  have h := consecutive_failures_spec initState
    [CycleOutcome.fetchFailure, CycleOutcome.unexpectedError,
      CycleOutcome.fetchFailure] rfl (by decide)
  exact ⟨h.2.1, h.2.2 50 10⟩

/-- A percentage header is never the error header: `main_text` of a
present level ends in `'%'`, so it cannot be the string `"ERROR"`. -/
theorem main_text_some_ne_error (x : ℚ) : main_text (some x) ≠ "ERROR" := by
  unfold main_text
  intro h
  have hd : (toString ⌊x⌋ ++ "%").data = "ERROR".data := congrArg String.data h
  rw [String.data_append] at hd
  have h1 : ((toString ⌊x⌋).data ++ "%".data).getLast? = some '%' := by
    have hp : ("%" : String).data = ['%'] := rfl
    rw [hp, List.getLast?_concat]
  rw [hd] at h1
  have h2 : ("ERROR" : String).data.getLast? = some 'R' := rfl
  rw [h2] at h1
  cases h1

/-- One cycle preserves the presence of a last-known-good reading. -/
theorem step_lastGood_isSome (s : LoopState) (o : CycleOutcome)
    (h : s.lastGoodLevel.isSome = true) :
    (stepState s o).lastGoodLevel.isSome = true := by
  cases o with
  | fetchSuccess v now => rfl
  | fetchFailure => exact h
  | unexpectedError => exact h

/-- Any run of cycles preserves the presence of a last-known-good reading. -/
theorem runCycles_lastGood_isSome (os : List CycleOutcome) :
    ∀ s : LoopState, s.lastGoodLevel.isSome = true →
      (runCycles s os).lastGoodLevel.isSome = true := by
  induction os with
  | nil => intro s h; exact h
  | cons o os ih =>
      intro s h
      exact ih (stepState s o) (step_lastGood_isSome s o h)

/-- C9: once some cycle has succeeded, every later display call carries a
present battery level (on a failed fetch the stale last-good value is
passed instead of `None`), so `is_error` is false and neither the
`"ERROR"` header nor the `"Connection Failed"` footer can be rendered
after the first successful fetch. -/
theorem display_after_success (s : LoopState) (pre post : List CycleOutcome)
    (v : ℚ) (now : Nat) (o : CycleOutcome) (lvl : Option ℚ) (cs : String) (n : Nat)
    (hcall : cycleDisplayCall
        (runCycles (stepState (runCycles s pre) (CycleOutcome.fetchSuccess v now)) post) o
      = some (lvl, cs, n)) :
    lvl.isSome = true ∧ is_error lvl = false ∧
    status_text lvl = "Battery Level" ∧ main_text lvl ≠ "ERROR" := by
  have hsome : (runCycles (stepState (runCycles s pre)
      (CycleOutcome.fetchSuccess v now)) post).lastGoodLevel.isSome = true :=
    runCycles_lastGood_isSome post _ rfl
  set s1 := runCycles (stepState (runCycles s pre)
    (CycleOutcome.fetchSuccess v now)) post with hs1
  have hlvl : ∃ x, lvl = some x := by
    cases o with
    | fetchSuccess w t =>
        simp only [cycleDisplayCall, Option.some.injEq, Prod.mk.injEq] at hcall
        exact ⟨w, hcall.1.symm⟩
    | fetchFailure =>
        cases hl : s1.lastGoodLevel with
        | some lv =>
            simp only [cycleDisplayCall, hl, Option.some.injEq, Prod.mk.injEq] at hcall
            exact ⟨lv, hcall.1.symm⟩
        | none => rw [hl] at hsome; cases hsome
    | unexpectedError => simp [cycleDisplayCall] at hcall
  obtain ⟨x, hx⟩ := hlvl
  subst hx
  exact ⟨rfl, rfl, rfl, main_text_some_ne_error x⟩

/-- Witness for `display_after_success`: a success at level 50, then a
failed fetch — the display call carries the stale 50, not `None`. -/
theorem display_after_success_witness :
    cycleDisplayCall
        (runCycles (stepState (runCycles initState [])
          (CycleOutcome.fetchSuccess 50 0)) []) CycleOutcome.fetchFailure =
      some (some 50, "FAILED", 1) ∧
    ((some (50 : ℚ)).isSome = true ∧ is_error (some 50) = false ∧
      status_text (some 50) = "Battery Level" ∧ main_text (some 50) ≠ "ERROR") :=
  ⟨rfl, display_after_success initState [] [] 50 0 CycleOutcome.fetchFailure
    (some 50) "FAILED" 1 rfl⟩

/-- C4: a call to `get_battery_status_with_retry` makes at most
`MAX_RETRIES` (3) fetch attempts; the number of attempts equals 1 plus
the number of inter-attempt sleeps; and with the jitter factor drawn from
`U(0.1, 0.5)`, the sleep after the failure of zero-based attempt `i` lies
between `retryDelay i` and `1.5 * retryDelay i` (it is in fact
`retryDelay i * (1 + jitter)`, hence within `[1.1, 1.5]` times the delay). -/
theorem retry_bounds (results : Nat → Option ℚ) (jitters : Nat → ℚ)
    (hj : ∀ i, 1/10 ≤ jitters i ∧ jitters i ≤ 1/2) :
    (get_battery_status_with_retry results jitters).attempts ≤ MAX_RETRIES ∧
    (get_battery_status_with_retry results jitters).attempts =
      1 + (get_battery_status_with_retry results jitters).sleeps.length ∧
    ∀ i, i < (get_battery_status_with_retry results jitters).sleeps.length →
      retryDelay i ≤ (get_battery_status_with_retry results jitters).sleeps.getD i 0 ∧
      (get_battery_status_with_retry results jitters).sleeps.getD i 0 ≤
        3 / 2 * retryDelay i := by
  have hq0 := hj 0
  have hq1 := hj 1
  have hd0 : retryDelay 0 = 5 := by
    norm_num [retryDelay, INITIAL_RETRY_DELAY, RETRY_BACKOFF_MULTIPLIER, MAX_RETRY_DELAY]
  have hd1 : retryDelay 1 = 10 := by
    norm_num [retryDelay, INITIAL_RETRY_DELAY, RETRY_BACKOFF_MULTIPLIER, MAX_RETRY_DELAY]
  unfold get_battery_status_with_retry
  rcases h0 : results 0 with _ | v0
  · rcases h1 : results 1 with _ | v1
    · rcases h2 : results 2 with _ | v2
      · simp only [retryLoop, h0, h1, h2, MAX_RETRIES]
        norm_num
        intro i hi
        interval_cases i
        · simp only [List.getD, List.getElem?_cons_zero, List.getElem?_cons_succ,
            Option.getD_some]
          rw [hd0]
          constructor <;> linarith [hq0.1, hq0.2]
        · simp only [List.getD, List.getElem?_cons_zero, List.getElem?_cons_succ,
            Option.getD_some]
          rw [hd1]
          constructor <;> linarith [hq1.1, hq1.2]
      · simp only [retryLoop, h0, h1, h2, MAX_RETRIES]
        norm_num
        intro i hi
        interval_cases i
        · simp only [List.getD, List.getElem?_cons_zero, List.getElem?_cons_succ,
            Option.getD_some]
          rw [hd0]
          constructor <;> linarith [hq0.1, hq0.2]
        · simp only [List.getD, List.getElem?_cons_zero, List.getElem?_cons_succ,
            Option.getD_some]
          rw [hd1]
          constructor <;> linarith [hq1.1, hq1.2]
    · simp only [retryLoop, h0, h1, MAX_RETRIES]
      norm_num
      rw [hd0]
      constructor <;> linarith [hq0.1, hq0.2]
  · simp only [retryLoop, h0, MAX_RETRIES]
    norm_num

/-- Witness for `retry_bounds`: every attempt fails and every jitter draw
is `0.25`, giving 3 attempts and 2 sleeps. -/
theorem retry_bounds_witness :
    (get_battery_status_with_retry (fun _ => none) (fun _ => 1/4)).attempts ≤
      MAX_RETRIES ∧
    (get_battery_status_with_retry (fun _ => none) (fun _ => 1/4)).attempts =
      1 + (get_battery_status_with_retry (fun _ => none)
        (fun _ => 1/4)).sleeps.length ∧
    (retryDelay 0 ≤ (get_battery_status_with_retry (fun _ => none)
        (fun _ => 1/4)).sleeps.getD 0 0 ∧
      (get_battery_status_with_retry (fun _ => none)
        (fun _ => 1/4)).sleeps.getD 0 0 ≤ 3 / 2 * retryDelay 0) := by
  have h := retry_bounds (fun _ => none) (fun _ => (1 : ℚ)/4)
    (fun _ => by norm_num)
  refine ⟨h.1, h.2.1, h.2.2 0 ?_⟩
  rw [show (get_battery_status_with_retry (fun _ => none)
    (fun _ => (1 : ℚ)/4)).sleeps.length = 2 from rfl]
  norm_num

/-- Invariant of the monotonic probe: if the current size fits and some
size within the remaining fuel fails, the probe returns the last fitting
size — it fits, and the next size does not. -/
theorem fitGo_spec (measure : Nat → Nat × Nat) (maxW maxH : Nat) :
    ∀ fuel s : Nat, fitsWithin measure maxW maxH s = true →
      (∃ k, k ≤ fuel ∧ fitsWithin measure maxW maxH (s + k) = false) →
      fitsWithin measure maxW maxH (fitGo measure maxW maxH (s + 1) fuel) = true ∧
      fitsWithin measure maxW maxH (fitGo measure maxW maxH (s + 1) fuel + 1) = false := by
  intro fuel
  induction fuel with
  | zero =>
      intro s hs hex
      obtain ⟨k, hk, hkf⟩ := hex
      have hk0 : k = 0 := Nat.le_zero.mp hk
      subst hk0
      rw [Nat.add_zero, hs] at hkf
      cases hkf
  | succ f ih =>
      intro s hs hex
      obtain ⟨k, hk, hkf⟩ := hex
      have hstep : fitGo measure maxW maxH (s + 1) (f + 1) =
          if fitsWithin measure maxW maxH (s + 1) = true then
            fitGo measure maxW maxH (s + 1 + 1) f
          else (s + 1) - 1 := rfl
      by_cases hs1 : fitsWithin measure maxW maxH (s + 1) = true
      · rw [hstep, if_pos hs1]
        have hex2 : ∃ j, j ≤ f ∧ fitsWithin measure maxW maxH (s + 1 + j) = false := by
          match k, hkf with
          | 0, hkf => rw [Nat.add_zero, hs] at hkf; cases hkf
          | j + 1, hkf =>
              refine ⟨j, by omega, ?_⟩
              rw [show s + 1 + j = s + (j + 1) by omega]
              exact hkf
        exact ih (s + 1) hs1 hex2
      · rw [hstep, if_neg hs1]
        rw [show s + 1 - 1 = s by omega]
        exact ⟨hs, Bool.eq_false_iff.mpr hs1⟩

/-- C8 (spec-modelled): `fit` is deterministic — two calls with identical
arguments return the same size — and, provided size 1 fits and some size
within the search bound of 1000 does not, the returned size is maximal:
its bounding box fits within the bounds while the box at the next size
does not. -/
theorem fit_idempotent_maximal (measure : Nat → Nat × Nat) (maxW maxH : Nat)
    (h1 : fitsWithin measure maxW maxH 1 = true)
    (hstop : ∃ s, 1 ≤ s ∧ s ≤ 1000 ∧ fitsWithin measure maxW maxH s = false) :
    fit measure maxW maxH = fit measure maxW maxH ∧
    fitsWithin measure maxW maxH (fit measure maxW maxH) = true ∧
    fitsWithin measure maxW maxH (fit measure maxW maxH + 1) = false := by
  refine ⟨rfl, ?_⟩
  have hstep : fit measure maxW maxH =
      if fitsWithin measure maxW maxH 1 = true then fitGo measure maxW maxH 2 999
      else 0 := rfl
  rw [hstep, if_pos h1]
  have hex : ∃ k, k ≤ 999 ∧ fitsWithin measure maxW maxH (1 + k) = false := by
    obtain ⟨s0, hs1, hs2, hsf⟩ := hstop
    refine ⟨s0 - 1, by omega, ?_⟩
    rw [show 1 + (s0 - 1) = s0 by omega]
    exact hsf
  exact fitGo_spec measure maxW maxH 999 1 h1 hex

/-- Witness for `fit_idempotent_maximal`: a linear 10-pixel-per-size
metric in a 45-pixel box, where the maximal fitting size is 4. -/
theorem fit_idempotent_maximal_witness :
    fitsWithin (fun s => (10 * s, 10 * s)) 45 45 1 = true ∧
    fitsWithin (fun s => (10 * s, 10 * s)) 45 45 5 = false ∧
    fit (fun s => (10 * s, 10 * s)) 45 45 = 4 ∧
    (fit (fun s => (10 * s, 10 * s)) 45 45 = fit (fun s => (10 * s, 10 * s)) 45 45 ∧
      fitsWithin (fun s => (10 * s, 10 * s)) 45 45
        (fit (fun s => (10 * s, 10 * s)) 45 45) = true ∧
      fitsWithin (fun s => (10 * s, 10 * s)) 45 45
        (fit (fun s => (10 * s, 10 * s)) 45 45 + 1) = false) :=
  ⟨rfl, rfl, rfl, fit_idempotent_maximal (fun s => (10 * s, 10 * s)) 45 45 rfl
    ⟨5, by omega, by omega, rfl⟩⟩

end Battery
